import Mathlib

/-!
Verification of the code-input library (src/code-input.js) against its
natural-language specification.  JavaScript strings are modelled as
`List Char`; the DOM-independent state of the library (template registry,
pending queue, widget-instance fields) is modelled by explicit state
records, and stateful methods become state-passing functions.  Code that
can throw is modelled with `Except String`.
-/

/-- JavaScript strings, modelled as lists of characters. -/
abbrev Str := List Char

/-- Model of `String.prototype.replace(new RegExp(pat, "g"), rep)` for a
literal (metacharacter-free) pattern `pat`: scan left to right, replace each
leftmost non-overlapping occurrence of `pat` by `rep`.  All patterns used by
the source (`&`, `<`, `&amp;`, `&lt;`, `&gt;`) are non-empty literals; an
empty pattern is treated as matching nowhere. -/
def replaceAll (pat rep : Str) (text : Str) : Str :=
  match text with
  | [] => []
  | c :: cs =>
    if pat.isPrefixOf (c :: cs) ∧ 1 ≤ pat.length then
      rep ++ replaceAll pat rep (cs.drop (pat.length - 1))
    else
      c :: replaceAll pat rep cs
termination_by text.length
decreasing_by
  · simp only [List.length_drop, List.length_cons]
    omega
  · simp only [List.length_cons]
    omega

/-- codeInput.CodeInput.escapeHtml (src/code-input.js lines 559-561):
`text.replace(/&/g, "&amp;").replace(/</g, "&lt;")`. -/
def escapeHtml (text : Str) : Str :=
  replaceAll ['<'] ('&' :: 'l' :: 't' :: ';' :: [])
    (replaceAll ['&'] ('&' :: 'a' :: 'm' :: 'p' :: ';' :: []) text)

/-- codeInput.CodeInput.unescapeHtml (src/code-input.js lines 568-570):
`text.replace(/&amp;/g, "&").replace(/&lt;/g, "<").replace(/&gt;/g, ">")`. -/
def unescapeHtml (text : Str) : Str :=
  replaceAll ('&' :: 'g' :: 't' :: ';' :: []) ['>']
    (replaceAll ('&' :: 'l' :: 't' :: ';' :: []) ['<']
      (replaceAll ('&' :: 'a' :: 'm' :: 'p' :: ';' :: []) ['&'] text))

theorem replaceAll_nil (pat rep : Str) : replaceAll pat rep [] = [] := by
  simp [replaceAll]

/-- Scanning a text that starts with the (non-empty) pattern replaces that
occurrence and continues after it. -/
theorem replaceAll_match (pat rep rest : Str) (hp : pat ≠ []) :
    replaceAll pat rep (pat ++ rest) = rep ++ replaceAll pat rep rest := by
  cases pat with
  | nil => exact absurd rfl hp
  | cons p ps =>
      rw [show (p :: ps) ++ rest = p :: (ps ++ rest) by simp]
      rw [replaceAll]
      rw [if_pos ⟨by simp [List.isPrefixOf], by simp⟩]
      simp

/-- Scanning a text whose head differs from the pattern head copies the head
character. -/
theorem replaceAll_cons_ne (a : Char) (ps rep : Str) (c : Char) (rest : Str)
    (h : ¬ a = c) :
    replaceAll (a :: ps) rep (c :: rest) = c :: replaceAll (a :: ps) rep rest := by
  rw [replaceAll]
  rw [if_neg]
  intro hcontra
  have := hcontra.1
  simp [List.isPrefixOf] at this
  exact h this.1

/-- Scanning a text whose second character differs from the pattern's second
character copies the head character. -/
theorem replaceAll_cons₂_ne (a b : Char) (ps rep : Str) (c h : Char) (rest : Str)
    (hb : ¬ b = h) :
    replaceAll (a :: b :: ps) rep (c :: h :: rest) =
      c :: replaceAll (a :: b :: ps) rep (h :: rest) := by
  rw [replaceAll]
  rw [if_neg]
  intro hcontra
  have := hcontra.1
  simp [List.isPrefixOf] at this
  exact hb this.2.1

/-- Replacement of a single-character pattern acts independently on every
character. -/
theorem replaceAll_single (a : Char) (rep : Str) (t : Str) :
    replaceAll [a] rep t = t.flatMap (fun c => if c = a then rep else [c]) := by
  induction t with
  | nil => simp [replaceAll]
  | cons c cs ih =>
      by_cases hca : a = c
      · subst hca
        have := replaceAll_match [a] rep cs (by simp)
        simpa [ih] using this
      · rw [replaceAll_cons_ne a [] rep c cs hca, ih]
        simp [Ne.symm hca]

theorem replaceAll_singleton (a b : Char) (ps rep : Str) (c : Char) :
    replaceAll (a :: b :: ps) rep [c] = [c] := by
  rw [replaceAll]
  rw [if_neg]
  · simp [replaceAll]
  · intro hcontra
    have := hcontra.1
    simp [List.isPrefixOf] at this

/-- Per-character effect of `escapeHtml`. -/
def escChar (c : Char) : Str :=
  if c = '&' then '&' :: 'a' :: 'm' :: 'p' :: ';' :: []
  else if c = '<' then '&' :: 'l' :: 't' :: ';' :: []
  else [c]

/-- Per-character form of an escaped string after undoing the first
(`&amp;` to `&`) pass of `unescapeHtml`. -/
def escCharAfterAmp (c : Char) : Str :=
  if c = '&' then ['&']
  else if c = '<' then '&' :: 'l' :: 't' :: ';' :: []
  else [c]

theorem escapeHtml_flatMap (t : Str) : escapeHtml t = t.flatMap escChar := by
  unfold escapeHtml
  rw [replaceAll_single, replaceAll_single, List.flatMap_assoc]
  apply List.flatMap_congr
  intro c _
  by_cases h1 : c = '&'
  · subst h1; decide
  · by_cases h2 : c = '<'
    · subst h2; simp [escChar]
    · simp [h1, h2, escChar]

theorem unescape_pass_amp (v : Str) (hv : ∀ c ∈ v, c = '&' ∨ c = '<' ∨ c = '>') :
    replaceAll ('&' :: 'a' :: 'm' :: 'p' :: ';' :: []) ['&'] (v.flatMap escChar) =
      v.flatMap escCharAfterAmp := by
  induction v with
  | nil => simp [replaceAll]
  | cons c t ih =>
      have hc := hv c (List.mem_cons_self c t)
      have ht : ∀ x ∈ t, x = '&' ∨ x = '<' ∨ x = '>' :=
        fun x hx => hv x (List.mem_cons_of_mem c hx)
      rcases hc with hc | hc | hc
      · subst hc
        rw [List.flatMap_cons, List.flatMap_cons]
        rw [show escChar '&' = '&' :: 'a' :: 'm' :: 'p' :: ';' :: [] by decide]
        rw [replaceAll_match _ _ _ (by simp), ih ht]
        simp [escCharAfterAmp]
      · subst hc
        rw [List.flatMap_cons, List.flatMap_cons]
        rw [show escChar '<' = '&' :: 'l' :: 't' :: ';' :: [] by decide]
        rw [show escCharAfterAmp '<' = '&' :: 'l' :: 't' :: ';' :: [] by decide]
        simp only [List.cons_append]
        rw [replaceAll_cons₂_ne _ _ _ _ _ _ _ (by decide)]
        rw [replaceAll_cons_ne _ _ _ _ _ (by decide)]
        rw [replaceAll_cons_ne _ _ _ _ _ (by decide)]
        rw [replaceAll_cons_ne _ _ _ _ _ (by decide)]
        simp only [List.nil_append]
        rw [ih ht]
      · subst hc
        rw [List.flatMap_cons, List.flatMap_cons]
        rw [show escChar '>' = ['>'] by decide]
        rw [show escCharAfterAmp '>' = ['>'] by decide]
        simp only [List.cons_append, List.nil_append]
        rw [replaceAll_cons_ne _ _ _ _ _ (by decide)]
        rw [ih ht]

/-- When the second character of the pattern cannot match the second character
of the text, the head character of the text is copied unchanged. -/
theorem replaceAll_cons_step (a b : Char) (ps rep : Str) (c : Char) (w : Str)
    (hw : w = [] ∨ ∃ h rest, w = h :: rest ∧ ¬ b = h) :
    replaceAll (a :: b :: ps) rep (c :: w) = c :: replaceAll (a :: b :: ps) rep w := by
  rcases hw with hw | ⟨h, rest, hw, hbh⟩
  · subst hw
    rw [replaceAll_singleton, replaceAll_nil]
  · subst hw
    exact replaceAll_cons₂_ne a b ps rep c h rest hbh

theorem flatMap_escCharAfterAmp_head (t : Str)
    (ht : ∀ c ∈ t, c = '&' ∨ c = '<' ∨ c = '>') :
    t.flatMap escCharAfterAmp = [] ∨
      ∃ h rest, t.flatMap escCharAfterAmp = h :: rest ∧ (h = '&' ∨ h = '>') := by
  cases t with
  | nil => exact Or.inl rfl
  | cons d t' =>
      have hd := ht d (List.mem_cons_self d t')
      rcases hd with hd | hd | hd <;> subst hd
      · exact Or.inr ⟨'&', t'.flatMap escCharAfterAmp,
          by simp [escCharAfterAmp], Or.inl rfl⟩
      · exact Or.inr ⟨'&', 'l' :: 't' :: ';' :: t'.flatMap escCharAfterAmp,
          by simp [escCharAfterAmp], Or.inl rfl⟩
      · exact Or.inr ⟨'>', t'.flatMap escCharAfterAmp,
          by simp [escCharAfterAmp], Or.inr rfl⟩

theorem unescape_pass_lt (v : Str) (hv : ∀ c ∈ v, c = '&' ∨ c = '<' ∨ c = '>') :
    replaceAll ('&' :: 'l' :: 't' :: ';' :: []) ['<'] (v.flatMap escCharAfterAmp) = v := by
  induction v with
  | nil => simp [replaceAll]
  | cons c t ih =>
      have hc := hv c (List.mem_cons_self c t)
      have ht : ∀ x ∈ t, x = '&' ∨ x = '<' ∨ x = '>' :=
        fun x hx => hv x (List.mem_cons_of_mem c hx)
      rcases hc with hc | hc | hc
      · subst hc
        rw [List.flatMap_cons]
        rw [show escCharAfterAmp '&' = ['&'] by decide]
        simp only [List.cons_append, List.nil_append]
        have hw := flatMap_escCharAfterAmp_head t ht
        rw [replaceAll_cons_step _ _ _ _ _ _ (by
          rcases hw with hw | ⟨h, rest, hw, hh⟩
          · exact Or.inl hw
          · refine Or.inr ⟨h, rest, hw, ?_⟩
            rcases hh with hh | hh <;> subst hh <;> decide)]
        rw [ih ht]
      · subst hc
        rw [List.flatMap_cons]
        rw [show escCharAfterAmp '<' = '&' :: 'l' :: 't' :: ';' :: [] by decide]
        rw [replaceAll_match _ _ _ (by simp), ih ht]
        simp
      · subst hc
        rw [List.flatMap_cons]
        rw [show escCharAfterAmp '>' = ['>'] by decide]
        simp only [List.cons_append, List.nil_append]
        rw [replaceAll_cons_ne _ _ _ _ _ (by decide), ih ht]

theorem unescape_pass_gt (v : Str) (hv : ∀ c ∈ v, c = '&' ∨ c = '<' ∨ c = '>') :
    replaceAll ('&' :: 'g' :: 't' :: ';' :: []) ['>'] v = v := by
  induction v with
  | nil => simp [replaceAll]
  | cons c t ih =>
      have hc := hv c (List.mem_cons_self c t)
      have ht : ∀ x ∈ t, x = '&' ∨ x = '<' ∨ x = '>' :=
        fun x hx => hv x (List.mem_cons_of_mem c hx)
      rcases hc with hc | hc | hc
      · subst hc
        rw [replaceAll_cons_step _ _ _ _ _ _ (by
          cases t with
          | nil => exact Or.inl rfl
          | cons d t' =>
              refine Or.inr ⟨d, t', rfl, ?_⟩
              have hd := ht d (List.mem_cons_self d t')
              rcases hd with hd | hd | hd <;> subst hd <;> decide)]
        rw [ih ht]
      · subst hc
        rw [replaceAll_cons_ne _ _ _ _ _ (by decide), ih ht]
      · subst hc
        rw [replaceAll_cons_ne _ _ _ _ _ (by decide), ih ht]

/-- C4: for every text value consisting only of the characters ampersand,
less-than and greater-than, `unescapeHtml` inverts `escapeHtml`, where
`escapeHtml` replaces exactly the ampersand with the amp entity and the
less-than sign with the lt entity (it does not encode the greater-than sign)
and `unescapeHtml` replaces exactly the amp, lt and gt entities by their
characters. -/
theorem C4_escape_unescape_roundtrip (v : Str)
    (hv : ∀ c ∈ v, c = '&' ∨ c = '<' ∨ c = '>') :
    unescapeHtml (escapeHtml v) = v := by
  rw [escapeHtml_flatMap]
  unfold unescapeHtml
  rw [unescape_pass_amp v hv, unescape_pass_lt v hv, unescape_pass_gt v hv]

/-- Witness for C4 at the concrete input containing all three characters. -/
theorem C4_escape_unescape_roundtrip_witness :
    unescapeHtml (escapeHtml ('&' :: '<' :: '>' :: '&' :: '&' :: '<' :: [])) =
      ('&' :: '<' :: '>' :: '&' :: '&' :: '<' :: []) :=
  C4_escape_unescape_roundtrip _ (by decide)

/-- An instance of the `codeInput.Plugin` class (src/code-input.js lines
351-404).  `observedAttrs` is the list passed to the constructor (each entry
is pushed onto the global `codeInput.observedAttributes`); `hooks` is the set
of method names reachable through the object with the `in` operator — the
class body defines the five lifecycle hooks, so instances carry all five. -/
structure PluginObj where
  id : Nat
  observedAttrs : List String
  hooks : List String
deriving DecidableEq

/-- The five hook methods defined on the `codeInput.Plugin` class body. -/
def pluginClassHooks : List String :=
  ["beforeHighlight", "afterHighlight", "beforeElementsAdded",
   "afterElementsAdded", "attributeChanged"]

/-- Construction of a `codeInput.Plugin` instance: all five class hooks are
present on the prototype chain. -/
def mkPlugin (id : Nat) (observedAttrs : List String) : PluginObj :=
  ⟨id, observedAttrs, pluginClassHooks⟩

/-- Untyped JavaScript values, as far as the source inspects them with
`typeof`, `instanceof`, `Array.isArray` and truthiness tests. -/
inductive JsValue where
  | undef
  | null
  | bool (b : Bool)
  | num (n : Int)
  | str (s : String)
  | fn (id : Nat)
  | arr (elems : List JsValue)
  | plugin (p : PluginObj)

/-- `typeof v == "string" || v instanceof String`. -/
def isStringValue : JsValue → Bool
  | .str _ => true
  | _ => false

/-- `typeof v == "function" || v instanceof Function`. -/
def isFunctionValue : JsValue → Bool
  | .fn _ => true
  | _ => false

/-- `typeof v == "boolean" || v instanceof Boolean`. -/
def isBooleanValue : JsValue → Bool
  | .bool _ => true
  | _ => false

/-- `Array.isArray(v)`. -/
def isArrayValue : JsValue → Bool
  | .arr _ => true
  | _ => false

/-- `v instanceof codeInput.Plugin`. -/
def isPluginInstance : JsValue → Bool
  | .plugin _ => true
  | _ => false

/-- JavaScript truthiness of a value (`if (v)`). -/
def jsTruthy : JsValue → Bool
  | .undef => false
  | .null => false
  | .bool b => b
  | .num n => decide (n ≠ 0)
  | .str s => decide (s ≠ "")
  | .fn _ => true
  | .arr _ => true
  | .plugin _ => true

/-- A Template record as passed to `codeInput.registerTemplate`: the five
fields the source reads, still untyped because registration validates them. -/
structure JsTemplate where
  highlight : JsValue
  preElementStyled : JsValue
  isCode : JsValue
  includeCodeInputInHighlightFunc : JsValue
  plugins : JsValue

/-- A code-input element as seen by the template registry: its identity and
its current `template` attribute (`none` models an absent attribute). -/
structure Elem where
  id : Nat
  templateAttr : Option String
deriving DecidableEq

/-- Lookup in a JavaScript object modelled as an insertion-ordered
association list of string keys. -/
def assocGet (l : List (String × α)) (k : String) : Option α :=
  match l with
  | [] => none
  | (k', v) :: rest => if k' = k then some v else assocGet rest k

/-- Assignment `obj[k] = v` on a JavaScript object: overwrite in place, or
append a new key in insertion order. -/
def assocSet (l : List (String × α)) (k : String) (v : α) : List (String × α) :=
  match l with
  | [] => [(k, v)]
  | (k', v') :: rest =>
      if k' = k then (k', v) :: rest else (k', v') :: assocSet rest k v

/-- The module-level mutable state of the `codeInput` object
(src/code-input.js lines 87-103): the registry of templates, the default
template name (`none` models the initial `undefined`), and the queue of
elements waiting for an unregistered template name.  JavaScript coerces the
property key `undefined` to the string key `"undefined"`, so the bucket of
elements that requested no name while no default exists is the bucket with
key `"undefined"`. -/
structure RegistryState where
  usedTemplates : List (String × JsTemplate)
  defaultTemplate : Option String
  templateNotYetRegisteredQueue : List (String × List Elem)

/-- The queue bucket under key `k` (empty if the key is absent). -/
def bucketOfQ (q : List (String × List Elem)) (k : String) : List Elem :=
  (assocGet q k).getD []

/-- The queue bucket of a registry state under key `k`. -/
def bucketOf (st : RegistryState) (k : String) : List Elem :=
  bucketOfQ st.templateNotYetRegisteredQueue k

/-- `if (!(name in queue)) queue[name] = []; queue[name].push(elem)`
(src/code-input.js lines 588-591). -/
def pushBucket (q : List (String × List Elem)) (k : String) (e : Elem) :
    List (String × List Elem) :=
  match assocGet q k with
  | some es => assocSet q k (es ++ [e])
  | none => q ++ [(k, [e])]

/-- The template name an element resolves (src/code-input.js lines 577-583):
its `template` attribute if present, else the default template name; when the
default is still `undefined`, the later property lookups coerce it to the
string key `"undefined"`. -/
def templateNameKey (el : Elem) (st : RegistryState) : String :=
  match el.templateAttr with
  | some t => t
  | none =>
      match st.defaultTemplate with
      | some d => d
      | none => "undefined"

/-- `codeInput.CodeInput.getTemplate` (src/code-input.js lines 576-594):
return the registered template for the resolved name, or enqueue the element
under that name and return `undefined`. -/
def getTemplate (el : Elem) (st : RegistryState) :
    Option JsTemplate × RegistryState :=
  let key := templateNameKey el st
  match assocGet st.usedTemplates key with
  | some tpl => (some tpl, st)
  | none =>
      (none,
        { st with templateNotYetRegisteredQueue :=
            pushBucket st.templateNotYetRegisteredQueue key el })

/-- The registry-visible effect of `codeInput.CodeInput.connectedCallback`
(src/code-input.js lines 741-753): it re-runs `getTemplate`, which may
enqueue the element; the DOM setup it performs on success does not touch the
registry. -/
def connectedCallbackRegistry (el : Elem) (st : RegistryState) : RegistryState :=
  (getTemplate el st).2

/-- The replay loop of `codeInput.registerTemplate` over one queue bucket
(src/code-input.js lines 129-135 and 142-148): for each queued element in
FIFO order, assign the template and re-run its `connectedCallback`.  Returns
the updated registry state and the ids of the replayed elements in order. -/
def replayBucket (elems : List Elem) (st : RegistryState) :
    RegistryState × List Nat :=
  match elems with
  | [] => (st, [])
  | e :: rest =>
      let st1 := connectedCallbackRegistry e st
      let p := replayBucket rest st1
      (p.1, e.id :: p.2)


/-- The post-validation part of `codeInput.registerTemplate`
(src/code-input.js lines 126-150): store the template under the name, replay
the bucket queued under the name, and if no default template existed yet,
make this name the default and replay the bucket queued under the
(string-coerced) key `"undefined"`.  No queue bucket is ever deleted.
Returns the new registry state and the ids of the elements whose attach
procedure was re-run, in order. -/
def registerStoreState (name : String) (template : JsTemplate)
    (st : RegistryState) : RegistryState :=
  { st with usedTemplates := assocSet st.usedTemplates name template }

/-- `if (k in queue) for (let i in queue[k]) { elem.template = template;
elem.connectedCallback(); }` — replay the bucket under key `k` if present
(src/code-input.js lines 128-136 and 141-149). -/
def replayQueueBucket (k : String) (st : RegistryState) :
    RegistryState × List Nat :=
  match assocGet st.templateNotYetRegisteredQueue k with
  | some es => replayBucket es st
  | none => (st, [])

def registerTemplateBody (name : String) (template : JsTemplate)
    (st : RegistryState) : RegistryState × List Nat :=
  let st1 := registerStoreState name template st
  let p1 := replayQueueBucket name st1
  if p1.1.defaultTemplate = none then
    let st3 := { p1.1 with defaultTemplate := some name }
    let p2 := replayQueueBucket "undefined" st3
    (p2.1, p1.2 ++ p2.2)
  else
    (p1.1, p1.2)

/-- `codeInput.registerTemplate` (src/code-input.js lines 111-151): validate
the name and the template fields in source order, throwing a TypeError on
the first failure, and otherwise run the post-validation body. -/
def registerTemplate (templateName : JsValue) (template : JsTemplate)
    (st : RegistryState) : Except String (RegistryState × List Nat) :=
  match templateName with
  | .str name =>
      if ¬ isFunctionValue template.highlight then
        .error "TypeError: highlight is not a function"
      else if ¬ isBooleanValue template.includeCodeInputInHighlightFunc then
        .error "TypeError: includeCodeInputInHighlightFunc is not a boolean"
      else if ¬ isBooleanValue template.preElementStyled then
        .error "TypeError: preElementStyled is not a boolean"
      else if ¬ isBooleanValue template.isCode then
        .error "TypeError: isCode is not a boolean"
      else
        match template.plugins with
        | .arr pluginValues =>
            if ¬ pluginValues.all isPluginInstance then
              .error "TypeError: a plugin is not a codeInput.Plugin"
            else
              .ok (registerTemplateBody name template st)
        | _ => .error "TypeError: plugins is not an array"
  | _ => .error "TypeError: name of template must be a string"

/-- The global registry state after a call to `codeInput.registerTemplate`,
whether it returns or throws: in the source every mutation of the global
state comes after all validation, so a throw leaves the state as it was. -/
def regStateAfter (templateName : JsValue) (template : JsTemplate)
    (st : RegistryState) : RegistryState :=
  match registerTemplate templateName template st with
  | .ok p => p.1
  | .error _ => st

theorem assocGet_assocSet (l : List (String × α)) (k : String) (v : α)
    (k' : String) :
    assocGet (assocSet l k v) k' = if k' = k then some v else assocGet l k' := by
  induction l with
  | nil =>
      by_cases h : k' = k
      · subst h; simp [assocSet, assocGet]
      · have h' : ¬ k = k' := fun hh => h hh.symm
        simp [assocSet, assocGet, h, h']
  | cons hd tl ih =>
      obtain ⟨k₀, v₀⟩ := hd
      by_cases h0 : k₀ = k
      · subst h0
        by_cases h : k' = k₀
        · subst h; simp [assocSet, assocGet]
        · have h' : ¬ k₀ = k' := fun hh => h hh.symm
          simp [assocSet, assocGet, h, h']
      · simp only [assocSet, if_neg h0, assocGet]
        by_cases hk : k₀ = k'
        · have hne : ¬ k' = k := fun hh => h0 (hk.trans hh)
          simp [hk, hne]
        · simp [hk, ih]

theorem assocGet_append (l l₂ : List (String × α)) (k : String) :
    assocGet (l ++ l₂) k =
      match assocGet l k with
      | some v => some v
      | none => assocGet l₂ k := by
  induction l with
  | nil => simp [assocGet]
  | cons hd tl ih =>
      obtain ⟨k₀, v₀⟩ := hd
      by_cases h : k₀ = k
      · simp [assocGet, h]
      · simp [assocGet, h, ih]

theorem bucketOfQ_pushBucket (q : List (String × List Elem)) (k : String)
    (e : Elem) (k' : String) :
    bucketOfQ (pushBucket q k e) k' =
      if k' = k then bucketOfQ q k' ++ [e] else bucketOfQ q k' := by
  unfold pushBucket
  cases hq : assocGet q k with
  | some es =>
      by_cases h : k' = k
      · subst h
        simp [bucketOfQ, assocGet_assocSet, hq]
      · simp [bucketOfQ, assocGet_assocSet, h]
  | none =>
      by_cases h : k' = k
      · subst h
        simp [bucketOfQ, assocGet_append, hq, assocGet]
      · rw [if_neg h]
        simp only [bucketOfQ, assocGet_append]
        cases hq' : assocGet q k' with
        | some es' => simp
        | none =>
            have h' : ¬ k = k' := fun hh => h hh.symm
            simp [assocGet, h']

theorem bucketOf_getTemplate (el : Elem) (st : RegistryState) (k : String) :
    bucketOf st k <+: bucketOf (getTemplate el st).2 k := by
  simp only [getTemplate]
  cases assocGet st.usedTemplates (templateNameKey el st) with
  | some tpl => exact List.prefix_rfl
  | none =>
      show bucketOfQ st.templateNotYetRegisteredQueue k <+:
        bucketOfQ (pushBucket st.templateNotYetRegisteredQueue
          (templateNameKey el st) el) k
      rw [bucketOfQ_pushBucket]
      by_cases hk : k = templateNameKey el st
      · rw [if_pos hk]
        exact List.prefix_append _ _
      · rw [if_neg hk]

theorem bucketOf_replayBucket (elems : List Elem) (st : RegistryState)
    (k : String) :
    bucketOf st k <+: bucketOf (replayBucket elems st).1 k := by
  induction elems generalizing st with
  | nil => exact List.prefix_rfl
  | cons e rest ih =>
      have h1 := bucketOf_getTemplate e st k
      have h2 := ih (connectedCallbackRegistry e st)
      rw [replayBucket]
      exact h1.trans h2

theorem bucketOf_replayQueueBucket (kq : String) (st : RegistryState)
    (k : String) :
    bucketOf st k <+: bucketOf (replayQueueBucket kq st).1 k := by
  unfold replayQueueBucket
  cases assocGet st.templateNotYetRegisteredQueue kq with
  | some es => exact bucketOf_replayBucket es st k
  | none => exact List.prefix_rfl

theorem registerTemplateBody_queue_extends (name : String) (t : JsTemplate)
    (st : RegistryState) (k : String) :
    bucketOf st k <+: bucketOf (registerTemplateBody name t st).1 k := by
  have h0 : bucketOf st k <+: bucketOf (registerStoreState name t st) k :=
    List.prefix_rfl
  have h1 := bucketOf_replayQueueBucket name (registerStoreState name t st) k
  simp only [registerTemplateBody]
  by_cases hdef :
      (replayQueueBucket name (registerStoreState name t st)).1.defaultTemplate
        = none
  · rw [if_pos hdef]
    have h2 : bucketOf (replayQueueBucket name (registerStoreState name t st)).1 k
        <+: bucketOf { (replayQueueBucket name (registerStoreState name t st)).1
              with defaultTemplate := some name } k :=
      List.prefix_rfl
    have h3 := bucketOf_replayQueueBucket "undefined"
      { (replayQueueBucket name (registerStoreState name t st)).1
          with defaultTemplate := some name } k
    exact ((h0.trans h1).trans h2).trans h3
  · rw [if_neg hdef]
    exact h0.trans h1

/-- A successful registration comes from a string name and runs the
post-validation body. -/
theorem registerTemplate_ok_shape (templateName : JsValue) (t : JsTemplate)
    (st : RegistryState) (p : RegistryState × List Nat)
    (hok : registerTemplate templateName t st = .ok p) :
    ∃ name, templateName = .str name ∧ p = registerTemplateBody name t st := by
  cases templateName with
  | str name =>
      refine ⟨name, rfl, ?_⟩
      rw [registerTemplate] at hok
      by_cases h1 : isFunctionValue t.highlight
      rotate_left
      · simp [h1] at hok
      by_cases h2 : isBooleanValue t.includeCodeInputInHighlightFunc
      rotate_left
      · simp [h1, h2] at hok
      by_cases h3 : isBooleanValue t.preElementStyled
      rotate_left
      · simp [h1, h2, h3] at hok
      by_cases h4 : isBooleanValue t.isCode
      rotate_left
      · simp [h1, h2, h3, h4] at hok
      rw [if_neg (by simpa using h1), if_neg (by simpa using h2),
        if_neg (by simpa using h3), if_neg (by simpa using h4)] at hok
      cases hpv : t.plugins with
      | arr pluginValues =>
          rw [hpv] at hok
          by_cases h5 : pluginValues.all isPluginInstance
          rotate_left
          · simp [h5] at hok
          simp only [Except.ok.injEq] at hok
          simp [h5] at hok
          exact hok.symm
      | undef => rw [hpv] at hok; cases hok
      | null => rw [hpv] at hok; cases hok
      | bool b => rw [hpv] at hok; cases hok
      | num n => rw [hpv] at hok; cases hok
      | str s => rw [hpv] at hok; cases hok
      | fn i => rw [hpv] at hok; cases hok
      | plugin pl => rw [hpv] at hok; cases hok
  | undef => cases hok
  | null => cases hok
  | bool b => cases hok
  | num n => cases hok
  | fn i => cases hok
  | arr l => cases hok
  | plugin pl => cases hok

/-- A minimal template record that passes every registration check. -/
def sampleTemplate : JsTemplate :=
  { highlight := .fn 0, preElementStyled := .bool true, isCode := .bool true,
    includeCodeInputInHighlightFunc := .bool false, plugins := .arr [] }

/-- An element whose template attribute requests the name "t". -/
def sampleElem : Elem := ⟨0, some "t"⟩

/-- The registry state just after `sampleElem` requested the unregistered
name "t" and was queued by `getTemplate`. -/
def sampleQueuedState : RegistryState :=
  { usedTemplates := [], defaultTemplate := none,
    templateNotYetRegisteredQueue := [("t", [sampleElem])] }

/-- C1 counterexample: an instance queued for the unregistered name "t" has
its attach procedure re-run when "t" is registered (its id is in the replay
list), but it is NOT removed from the pending queue — `registerTemplate`
never deletes queue buckets, contradicting the claim that an instance is
removed from the queue once its template resolves. -/
theorem C1_counterexample_instance_stays_queued :
    getTemplate sampleElem
      { usedTemplates := [], defaultTemplate := none,
        templateNotYetRegisteredQueue := [] } = (none, sampleQueuedState) ∧
    registerTemplate (.str "t") sampleTemplate sampleQueuedState =
      .ok
        ({ usedTemplates := [("t", sampleTemplate)], defaultTemplate := some "t",
           templateNotYetRegisteredQueue := [("t", [sampleElem])] }, [0]) ∧
    sampleElem ∈
      bucketOf (regStateAfter (.str "t") sampleTemplate sampleQueuedState) "t" := by
  refine ⟨rfl, rfl, ?_⟩
  have hb : bucketOf (regStateAfter (.str "t") sampleTemplate sampleQueuedState) "t"
      = [sampleElem] := rfl
  rw [hb]
  exact List.mem_singleton.mpr rfl

/-- C1 (amended): once a template resolves for a queued instance, the
instance's attach procedure is re-run but the instance is NOT removed from
the pending queue; `registerTemplate` never removes instances from any queue
bucket — every bucket of the prior state is a prefix of the same bucket of
the resulting state (and a failed registration leaves the state unchanged). -/
theorem C1_amended_queue_never_shrinks (templateName : JsValue)
    (template : JsTemplate) (st : RegistryState) (k : String) :
    bucketOf st k <+: bucketOf (regStateAfter templateName template st) k := by
  unfold regStateAfter
  cases hr : registerTemplate templateName template st with
  | error e => exact List.prefix_rfl
  | ok p =>
      obtain ⟨name, -, hbody⟩ :=
        registerTemplate_ok_shape templateName template st p hr
      rw [hbody]
      exact registerTemplateBody_queue_extends name template st k

/-- Replaying a bucket whose elements all resolve to a registered template
leaves the registry unchanged and re-runs the elements in FIFO order. -/
theorem replayBucket_resolved (elems : List Elem) (st : RegistryState)
    (h : ∀ e ∈ elems,
      (assocGet st.usedTemplates (templateNameKey e st)).isSome = true) :
    replayBucket elems st = (st, elems.map (fun e => e.id)) := by
  induction elems with
  | nil => rfl
  | cons e rest ih =>
      have he := h e (List.mem_cons_self e rest)
      obtain ⟨tpl, htpl⟩ := Option.isSome_iff_exists.mp he
      have hcb : connectedCallbackRegistry e st = st := by
        simp only [connectedCallbackRegistry, getTemplate, htpl]
      have ht := ih (fun x hx => h x (List.mem_cons_of_mem e hx))
      simp only [replayBucket, hcb, ht, List.map_cons]

/-- A registration whose inputs pass every check runs the body. -/
theorem registerTemplate_ok_of_valid (name : String) (template : JsTemplate)
    (st : RegistryState)
    (hfn : isFunctionValue template.highlight = true)
    (hb1 : isBooleanValue template.includeCodeInputInHighlightFunc = true)
    (hb2 : isBooleanValue template.preElementStyled = true)
    (hb3 : isBooleanValue template.isCode = true)
    (pvs : List JsValue)
    (hpl : template.plugins = .arr pvs)
    (hall : pvs.all isPluginInstance = true) :
    registerTemplate (.str name) template st =
      .ok (registerTemplateBody name template st) := by
  simp only [registerTemplate, hfn, hb1, hb2, hb3, hpl, hall]
  simp

/-- Replaying a bucket whose queued elements (if any) all resolve to a
registered template leaves the registry unchanged and re-runs the elements
in FIFO order. -/
theorem replayQueueBucket_resolved (k : String) (st : RegistryState)
    (h : ∀ e ∈ bucketOf st k,
      (assocGet st.usedTemplates (templateNameKey e st)).isSome = true) :
    replayQueueBucket k st = (st, (bucketOf st k).map (fun e => e.id)) := by
  unfold replayQueueBucket
  cases hb : assocGet st.templateNotYetRegisteredQueue k with
  | none =>
      have hempty : bucketOf st k = [] := by simp [bucketOf, bucketOfQ, hb]
      rw [hempty]
      simp
  | some es =>
      have hes : bucketOf st k = es := by simp [bucketOf, bucketOfQ, hb]
      show replayBucket es st = (st, (bucketOf st k).map (fun e => e.id))
      rw [replayBucket_resolved es st (fun e he => h e (by rw [hes]; exact he))]
      rw [hes]

theorem registerTemplateBody_spec (name : String) (template : JsTemplate)
    (st : RegistryState)
    (hnamed : ∀ e ∈ bucketOf st name, e.templateAttr = some name)
    (hdef : st.defaultTemplate = none →
      ∀ e ∈ bucketOf st "undefined", e.templateAttr = none) :
    registerTemplateBody name template st =
      ({ st with
          usedTemplates := assocSet st.usedTemplates name template,
          defaultTemplate := some (st.defaultTemplate.getD name) },
        (bucketOf st name).map (fun e => e.id) ++
          (if st.defaultTemplate = none
           then (bucketOf st "undefined").map (fun e => e.id)
           else [])) := by
  have hq1 : bucketOf (registerStoreState name template st) name
      = bucketOf st name := rfl
  have hres1 : ∀ e ∈ bucketOf (registerStoreState name template st) name,
      (assocGet (registerStoreState name template st).usedTemplates
        (templateNameKey e (registerStoreState name template st))).isSome
        = true := by
    intro e he
    have hat := hnamed e (hq1 ▸ he)
    have hkey : templateNameKey e (registerStoreState name template st) = name := by
      simp [templateNameKey, hat]
    rw [hkey]
    show (assocGet (assocSet st.usedTemplates name template) name).isSome = true
    rw [assocGet_assocSet]
    simp
  have hp1 := replayQueueBucket_resolved name (registerStoreState name template st)
    hres1
  rw [hq1] at hp1
  simp only [registerTemplateBody]
  rw [hp1]
  dsimp only
  by_cases hd : st.defaultTemplate = none
  · rw [if_pos (show (registerStoreState name template st).defaultTemplate = none
      from hd)]
    have hq2 : bucketOf
        { registerStoreState name template st with defaultTemplate := some name }
        "undefined" = bucketOf st "undefined" := rfl
    have hres2 : ∀ e ∈ bucketOf
        { registerStoreState name template st with defaultTemplate := some name }
        "undefined",
        (assocGet
          ({ registerStoreState name template st with
              defaultTemplate := some name }).usedTemplates
          (templateNameKey e
            { registerStoreState name template st with
                defaultTemplate := some name })).isSome = true := by
      intro e he
      have hat := hdef hd e (hq2 ▸ he)
      have hkey : templateNameKey e
          { registerStoreState name template st with
              defaultTemplate := some name } = name := by
        simp [templateNameKey, hat]
      rw [hkey]
      show (assocGet (assocSet st.usedTemplates name template) name).isSome = true
      rw [assocGet_assocSet]
      simp
    have hp2 := replayQueueBucket_resolved "undefined"
      { registerStoreState name template st with defaultTemplate := some name }
      hres2
    rw [hq2] at hp2
    rw [hp2]
    rw [if_pos hd, hd]
    rfl
  · rw [if_neg (show ¬ (registerStoreState name template st).defaultTemplate = none
      from hd)]
    rw [if_neg hd, List.append_nil]
    obtain ⟨d, hd'⟩ := Option.ne_none_iff_exists'.mp hd
    unfold registerStoreState
    rw [hd']
    rfl

/-- C3: registering a Template under name N stores it, makes it the default
when it is the first-ever registration, and assigns the Template and re-runs
the attach procedure of exactly the instances queued under N — plus, on a
first-ever registration, the instances queued with no requested name (the
string-coerced "undefined" bucket) — in original request (FIFO) order; the
queue itself, and in particular every bucket of instances queued under other
names, is untouched.  The hypotheses on the buckets say their elements still
request the key they were queued under, which is how `getTemplate` enqueued
them. -/
theorem C3_registerTemplate_replays_queued (name : String)
    (template : JsTemplate) (st : RegistryState)
    (hfn : isFunctionValue template.highlight = true)
    (hb1 : isBooleanValue template.includeCodeInputInHighlightFunc = true)
    (hb2 : isBooleanValue template.preElementStyled = true)
    (hb3 : isBooleanValue template.isCode = true)
    (pvs : List JsValue)
    (hpl : template.plugins = .arr pvs)
    (hall : pvs.all isPluginInstance = true)
    (hnamed : ∀ e ∈ bucketOf st name, e.templateAttr = some name)
    (hdef : st.defaultTemplate = none →
      ∀ e ∈ bucketOf st "undefined", e.templateAttr = none) :
    registerTemplate (.str name) template st =
      .ok
        ({ st with
            usedTemplates := assocSet st.usedTemplates name template,
            defaultTemplate := some (st.defaultTemplate.getD name) },
          (bucketOf st name).map (fun e => e.id) ++
            (if st.defaultTemplate = none
             then (bucketOf st "undefined").map (fun e => e.id)
             else [])) := by
  rw [registerTemplate_ok_of_valid name template st hfn hb1 hb2 hb3 pvs hpl hall]
  rw [registerTemplateBody_spec name template st hnamed hdef]

/-- A registry state with two instances queued under "python", one queued
with no requested name, and one queued under "rust". -/
def c3QueueState : RegistryState :=
  { usedTemplates := [], defaultTemplate := none,
    templateNotYetRegisteredQueue :=
      [("python", [⟨1, some "python"⟩, ⟨2, some "python"⟩]),
       ("undefined", [⟨3, none⟩]),
       ("rust", [⟨4, some "rust"⟩])] }

/-- Witness for C3: the first-ever registration of "python" replays the two
"python" instances then the no-name instance, in FIFO order, leaves every
queue bucket in place, and becomes the default. -/
theorem C3_registerTemplate_replays_queued_witness :
    registerTemplate (.str "python") sampleTemplate c3QueueState =
      .ok
        ({ usedTemplates := [("python", sampleTemplate)],
           defaultTemplate := some "python",
           templateNotYetRegisteredQueue :=
             [("python", [⟨1, some "python"⟩, ⟨2, some "python"⟩]),
              ("undefined", [⟨3, none⟩]),
              ("rust", [⟨4, some "rust"⟩])] },
          [1, 2, 3]) :=
  C3_registerTemplate_replays_queued "python" sampleTemplate c3QueueState
    rfl rfl rfl rfl [] rfl rfl (by decide) (fun _ => by decide)

/-- C7: `registerTemplate` raises a TypeError synchronously when the name is
not string-typed, or the highlight field is not callable, or any of the
three flags is not boolean-typed, or the plugins field is not an array, or
some plugins element is not a Plugin instance; in every such failure the
global registry state (template registry, default-template name and pending
queue) is unchanged. -/
theorem C7_registerTemplate_validation (templateName : JsValue)
    (template : JsTemplate) (st : RegistryState)
    (hbad : isStringValue templateName = false ∨
      isFunctionValue template.highlight = false ∨
      isBooleanValue template.includeCodeInputInHighlightFunc = false ∨
      isBooleanValue template.preElementStyled = false ∨
      isBooleanValue template.isCode = false ∨
      isArrayValue template.plugins = false ∨
      (∃ pvs, template.plugins = .arr pvs ∧
        pvs.all isPluginInstance = false)) :
    (∃ msg, registerTemplate templateName template st = .error msg ∧
      ("TypeError".data).isPrefixOf msg.data = true) ∧
    regStateAfter templateName template st = st := by
  have herr : ∃ msg, registerTemplate templateName template st = .error msg ∧
      ("TypeError".data).isPrefixOf msg.data = true := by
    cases templateName with
    | str name =>
        cases h1 : isFunctionValue template.highlight with
        | false =>
            refine ⟨"TypeError: highlight is not a function", ?_, by decide⟩
            simp [registerTemplate, h1]
        | true =>
        cases h2 : isBooleanValue template.includeCodeInputInHighlightFunc with
        | false =>
            refine
              ⟨"TypeError: includeCodeInputInHighlightFunc is not a boolean",
               ?_, by decide⟩
            simp [registerTemplate, h1, h2]
        | true =>
        cases h3 : isBooleanValue template.preElementStyled with
        | false =>
            refine ⟨"TypeError: preElementStyled is not a boolean", ?_, by decide⟩
            simp [registerTemplate, h1, h2, h3]
        | true =>
        cases h4 : isBooleanValue template.isCode with
        | false =>
            refine ⟨"TypeError: isCode is not a boolean", ?_, by decide⟩
            simp [registerTemplate, h1, h2, h3, h4]
        | true =>
        cases hpv : template.plugins with
        | arr pvs =>
            cases h5 : pvs.all isPluginInstance with
            | false =>
                refine ⟨"TypeError: a plugin is not a codeInput.Plugin", ?_,
                  by decide⟩
                simp [registerTemplate, h1, h2, h3, h4, hpv, h5]
            | true =>
                exfalso
                rcases hbad with h | h | h | h | h | h | ⟨pvs', hpv', hall'⟩
                · simp [isStringValue] at h
                · rw [h1] at h; cases h
                · rw [h2] at h; cases h
                · rw [h3] at h; cases h
                · rw [h4] at h; cases h
                · rw [hpv] at h; simp [isArrayValue] at h
                · rw [hpv] at hpv'
                  injection hpv' with he
                  subst he
                  rw [h5] at hall'
                  cases hall'
        | undef =>
            refine ⟨"TypeError: plugins is not an array", ?_, by decide⟩
            simp [registerTemplate, h1, h2, h3, h4, hpv]
        | null =>
            refine ⟨"TypeError: plugins is not an array", ?_, by decide⟩
            simp [registerTemplate, h1, h2, h3, h4, hpv]
        | bool b =>
            refine ⟨"TypeError: plugins is not an array", ?_, by decide⟩
            simp [registerTemplate, h1, h2, h3, h4, hpv]
        | num n =>
            refine ⟨"TypeError: plugins is not an array", ?_, by decide⟩
            simp [registerTemplate, h1, h2, h3, h4, hpv]
        | str s =>
            refine ⟨"TypeError: plugins is not an array", ?_, by decide⟩
            simp [registerTemplate, h1, h2, h3, h4, hpv]
        | fn i =>
            refine ⟨"TypeError: plugins is not an array", ?_, by decide⟩
            simp [registerTemplate, h1, h2, h3, h4, hpv]
        | plugin p =>
            refine ⟨"TypeError: plugins is not an array", ?_, by decide⟩
            simp [registerTemplate, h1, h2, h3, h4, hpv]
    | undef =>
        exact ⟨"TypeError: name of template must be a string", rfl, by decide⟩
    | null =>
        exact ⟨"TypeError: name of template must be a string", rfl, by decide⟩
    | bool b =>
        exact ⟨"TypeError: name of template must be a string", rfl, by decide⟩
    | num n =>
        exact ⟨"TypeError: name of template must be a string", rfl, by decide⟩
    | fn i =>
        exact ⟨"TypeError: name of template must be a string", rfl, by decide⟩
    | arr l =>
        exact ⟨"TypeError: name of template must be a string", rfl, by decide⟩
    | plugin p =>
        exact ⟨"TypeError: name of template must be a string", rfl, by decide⟩
  refine ⟨herr, ?_⟩
  obtain ⟨msg, hmsg, -⟩ := herr
  unfold regStateAfter
  rw [hmsg]

/-- A template record whose highlight field is not callable. -/
def badTemplate : JsTemplate :=
  { highlight := .str "not-a-function", preElementStyled := .bool true,
    isCode := .bool true, includeCodeInputInHighlightFunc := .bool false,
    plugins := .arr [] }

/-- Witness for C7: registering a template whose highlight is a string fails
with a TypeError and leaves the registry untouched. -/
theorem C7_registerTemplate_validation_witness :
    (∃ msg, registerTemplate (.str "bad") badTemplate sampleQueuedState =
        .error msg ∧ ("TypeError".data).isPrefixOf msg.data = true) ∧
    regStateAfter (.str "bad") badTemplate sampleQueuedState =
      sampleQueuedState :=
  C7_registerTemplate_validation (.str "bad") badTemplate sampleQueuedState
    (Or.inr (Or.inl rfl))

/-- codeInput.observedAttributes (src/code-input.js lines 25-31), before any
plugin appends to it. -/
def observedAttributes : List String :=
  ["value", "placeholder", "language", "lang", "template"]

/-- codeInput.textareaSyncAttributes (src/code-input.js lines 38-62). -/
def textareaSyncAttributes : List String :=
  ["value", "min", "max", "type", "pattern", "autocomplete", "autocorrect",
   "autofocus", "cols", "dirname", "disabled", "form", "maxlength",
   "minlength", "name", "placeholder", "readonly", "required", "rows",
   "spellcheck", "wrap"]

/-- codeInput.textareaSyncEvents (src/code-input.js lines 69-74). -/
def textareaSyncEvents : List String :=
  ["change", "selectionchange", "invalid", "input"]

/-- The `regexp` property read from the `textareaSyncAttributes` array at
src/code-input.js line 841: no statement in the source ever assigns this
property, so the access yields `undefined` (`none`). -/
def textareaSyncAttributes_regexp : Option (List String) := none

/-- The observed attribute list after plugins declaring `decls` have been
constructed: the `codeInput.Plugin` constructor (lines 358-363) pushes every
declared attribute onto the global list. -/
def observedAttributesWith (decls : List String) : List String :=
  observedAttributes ++ decls

/-- The mutable state of a set-up code-input element that the modelled
methods read and write: the editable textarea (value and reflected
attributes), the class lists of the element itself, the pre container and
the inner code element, the rendered HTML of the code element, the resolved
template, the connection state and the dirty flag. -/
structure CodeInputEl where
  isConnected : Bool
  textareaValue : Str
  textareaAttrs : List (String × String)
  rootClasses : List String
  preClasses : List String
  codeClasses : List String
  codeInnerHTML : Str
  template : Option JsTemplate
  needsHighlight : Bool

/-- `textarea.placeholder`: the reflected placeholder content attribute
(empty string when absent). -/
def textareaPlaceholder (el : CodeInputEl) : String :=
  (assocGet el.textareaAttrs "placeholder").getD ""

/-- `classList.add`: append the token unless already present. -/
def addClass (c : String) (classes : List String) : List String :=
  if classes.contains c then classes else classes ++ [c]

/-- `classList.remove`: drop the token. -/
def removeClass (c : String) (classes : List String) : List String :=
  classes.filter (fun x => !(x == c))

/-- `textarea.setAttribute(k, v)`. -/
def setTextareaAttr (k v : String) (el : CodeInputEl) : CodeInputEl :=
  { el with textareaAttrs := assocSet el.textareaAttrs k v }

/-- `textarea.removeAttribute(k)`. -/
def assocRemove (l : List (String × α)) (k : String) : List (String × α) :=
  l.filter (fun kv => !(kv.1 == k))

/-- `String.prototype.toLowerCase` on the basic-latin range. -/
def lowerS (s : String) : String := ⟨s.data.map Char.toLower⟩

/-- codeInput.CodeInput.scheduleHighlight (src/code-input.js lines 486-488):
set the dirty flag. -/
def scheduleHighlight (el : CodeInputEl) : CodeInputEl :=
  { el with needsHighlight := true }

/-- A JavaScript value assigned to the `value` property: the setter only
distinguishes null, undefined and everything else (stored via the
textarea). -/
inductive JsStrValue where
  | null
  | undef
  | str (s : Str)

/-- The `value` setter (src/code-input.js lines 947-958): null and undefined
become the empty string; the value is stored in the editable textarea and a
highlight is scheduled unconditionally. -/
def setValue (val : JsStrValue) (el : CodeInputEl) : CodeInputEl :=
  let v : Str :=
    match val with
    | .null => []
    | .undef => []
    | .str s => s
  scheduleHighlight { el with textareaValue := v }

/-- The `value` getter (src/code-input.js lines 939-942): read the editable
textarea. -/
def getValue (el : CodeInputEl) : Str := el.textareaValue

/-- One observable step of a highlight pass, in execution order. -/
inductive Effect where
  | setCodeInnerHTML (s : Str)
  | hook (pluginId : Nat) (hookName : String)
  | highlightCall (passedInstance : Bool)
  | syncSizeCall
deriving DecidableEq

/-- The plugin objects of a template's plugins array (after validation the
array holds only Plugin instances; any other value contributes no plugin
object). -/
def templatePlugins (t : JsTemplate) : List PluginObj :=
  match t.plugins with
  | .arr vs =>
      vs.filterMap (fun v =>
        match v with
        | .plugin p => some p
        | _ => none)
  | _ => []

/-- codeInput.CodeInput.pluginEvt (src/code-input.js lines 459-470) for the
argument-free hooks: call the hook on every plugin of the template, in
order, whenever the hook name is `in` the plugin. -/
def pluginEvt (plugins : List PluginObj) (eventName : String) : List Effect :=
  plugins.filterMap (fun p =>
    if p.hooks.contains eventName then some (.hook p.id eventName) else none)

/-- codeInput.CodeInput.update (src/code-input.js lines 506-522), returning
the updated element and the ordered trace of the pass: read the value and
append one newline, HTML-escape it into the code element, fire
beforeHighlight on all plugins, call the template's highlight function
(passing the instance iff includeCodeInputInHighlightFunc is truthy), sync
the surface sizes, then fire afterHighlight. -/
def update (t : JsTemplate) (el : CodeInputEl) : CodeInputEl × List Effect :=
  let value := getValue el ++ ['\n']
  ({ el with codeInnerHTML := escapeHtml value },
    [Effect.setCodeInnerHTML (escapeHtml value)] ++
      pluginEvt (templatePlugins t) "beforeHighlight" ++
      [Effect.highlightCall (jsTruthy t.includeCodeInputInHighlightFunc)] ++
      [Effect.syncSizeCall] ++
      pluginEvt (templatePlugins t) "afterHighlight")

/-- One tick of codeInput.CodeInput.animateFrame (src/code-input.js lines
493-501): if the dirty flag is set, run one update and clear the flag;
either way the frame callback reschedules itself (the rescheduling has no
state effect and is not modelled).  The returned list collects the traces of
the update calls made during the tick. -/
def animateFrame (t : JsTemplate) (el : CodeInputEl) :
    CodeInputEl × List (List Effect) :=
  if el.needsHighlight then
    let p := update t el
    ({ p.1 with needsHighlight := false }, [p.2])
  else
    (el, [])

/-- A mutation occurring within one frame: an assignment through the value
setter, or any other mutation whose handler calls scheduleHighlight (such as
the attribute handlers for value, lang and template). -/
inductive FrameMutation where
  | setVal (v : JsStrValue)
  | schedule

def applyMutation (m : FrameMutation) (el : CodeInputEl) : CodeInputEl :=
  match m with
  | .setVal v => setValue v el
  | .schedule => scheduleHighlight el

def applyMutations (ms : List FrameMutation) (el : CodeInputEl) : CodeInputEl :=
  ms.foldl (fun e m => applyMutation m e) el

/-- An invocation of a plugin's attributeChanged hook with its arguments. -/
inductive AttrEvent where
  | attributeChangedHook (pluginId : Nat) (name : String)
      (oldValue newValue : Option String)
deriving DecidableEq

/-- codeInput.CodeInput.pluginEvt for the attributeChanged event, which
passes the attribute name and both values (src/code-input.js line 785 with
lines 459-470). -/
def pluginEvtAttributeChanged (plugins : List PluginObj) (name : String)
    (oldValue newValue : Option String) : List AttrEvent :=
  plugins.filterMap (fun p =>
    if p.hooks.contains "attributeChanged" then
      some (.attributeChangedHook p.id name oldValue newValue)
    else none)

/-- The lang/language branch of attributeChangedCallback once the
already-applied guard has not fired (src/code-input.js lines 812-830):
remove the lowercased old language class from both the code element and its
pre parent, drop language-none from both, add the new language class to the
code element only, copy the new value to the textarea placeholder when the
placeholder equalled the lowercased old value (assigning null writes the
string "null"), and schedule a highlight.  `newLC` is the already-lowercased
new value. -/
def applyLangChange (oldValue : Option String) (newLC : Option String)
    (el : CodeInputEl) : CodeInputEl :=
  let oldLC := oldValue.map lowerS
  let el1 :=
    match oldLC with
    | some ov =>
        { el with
            codeClasses := removeClass ("language-" ++ ov) el.codeClasses,
            preClasses := removeClass ("language-" ++ ov) el.preClasses }
    | none => el
  let el2 :=
    { el1 with
        codeClasses := removeClass "language-none" el1.codeClasses,
        preClasses := removeClass "language-none" el1.preClasses }
  let el3 :=
    match newLC with
    | some nv =>
        if nv ≠ "" then
          { el2 with codeClasses := addClass ("language-" ++ nv) el2.codeClasses }
        else el2
    | none => el2
  let el4 :=
    if (match oldLC with
        | some ov => textareaPlaceholder el3 == ov
        | none => false) then
      setTextareaAttr "placeholder"
        (match newLC with
         | some nv => nv
         | none => "null") el3
    else el3
  scheduleHighlight el4

/-- codeInput.CodeInput.attributeChangedCallback (src/code-input.js lines
783-855) for a set-up instance whose template's plugin list is `plugins`:
when connected, fire every plugin's attributeChanged hook, then switch on
the attribute name; `reg` is the global registry read by the template
branch.  A thrown TypeError is an `Except.error`; the hook events are
returned alongside because they fire before any throw. -/
def attributeChangedCallback (reg : RegistryState) (plugins : List PluginObj)
    (name : String) (oldValue newValue : Option String) (el : CodeInputEl) :
    List AttrEvent × Except String CodeInputEl :=
  if el.isConnected = false then ([], .ok el)
  else
    let evts := pluginEvtAttributeChanged plugins name oldValue newValue
    if name = "value" then
      (evts, .ok (setValue
        (match newValue with
         | none => .null
         | some s => .str s.data) el))
    else if name = "template" then
      let key : Option String :=
        match newValue with
        | some s => if s ≠ "" then some s else reg.defaultTemplate
        | none => reg.defaultTemplate
      match assocGet reg.usedTemplates (key.getD "undefined") with
      | none =>
          (evts, .error "TypeError: cannot read preElementStyled of undefined")
      | some t =>
          let el1 := { el with template := some t }
          let el2 :=
            if jsTruthy t.preElementStyled then
              { el1 with rootClasses :=
                  addClass "code-input_pre-element-styled" el1.rootClasses }
            else
              { el1 with rootClasses :=
                  removeClass "code-input_pre-element-styled" el1.rootClasses }
          (evts, .ok (scheduleHighlight el2))
    else if name = "lang" ∨ name = "language" then
      match newValue.map lowerS with
      | some nv =>
          if el.codeClasses.contains ("language-" ++ nv) then
            (evts, .ok el)
          else
            (evts, .ok (applyLangChange oldValue (some nv) el))
      | none => (evts, .ok (applyLangChange oldValue none el))
    else if textareaSyncAttributes.contains name
        ∨ "aria-".data.isPrefixOf name.data then
      match newValue with
      | none =>
          (evts, .ok { el with textareaAttrs := assocRemove el.textareaAttrs name })
      | some v => (evts, .ok (setTextareaAttr name v el))
    else
      match textareaSyncAttributes_regexp with
      | none => (evts, .error "TypeError: cannot read forEach of undefined")
      | some regexpList =>
          (evts, .ok (regexpList.foldl (fun acc r =>
            if name = r then
              match newValue with
              | none => { acc with textareaAttrs := assocRemove acc.textareaAttrs name }
              | some v => setTextareaAttr name v acc
            else acc) el))

/-- C10: assigning null or undefined to the value property stores the empty
string in the editable textarea (so the getter then returns the empty
string), and every invocation of the setter — in particular one assigning
the value already stored — sets the dirty flag, requesting a highlight pass
on the next frame tick. -/
theorem C10_value_setter_dirty (el : CodeInputEl) :
    getValue (setValue .null el) = [] ∧
    getValue (setValue .undef el) = [] ∧
    ∀ val : JsStrValue, (setValue val el).needsHighlight = true :=
  ⟨rfl, rfl, fun _ => rfl⟩

/-- A concrete set-up, connected element with a clean dirty flag. -/
def sampleEl : CodeInputEl :=
  { isConnected := true, textareaValue := 'a' :: '&' :: 'b' :: [],
    textareaAttrs := [], rootClasses := [], preClasses := [],
    codeClasses := [], codeInnerHTML := [], template := some sampleTemplate,
    needsHighlight := false }

theorem applyMutation_dirty (m : FrameMutation) (el : CodeInputEl) :
    (applyMutation m el).needsHighlight = true := by
  cases m with
  | setVal v => rfl
  | schedule => rfl

theorem applyMutations_cons_dirty (m : FrameMutation)
    (rest : List FrameMutation) (el : CodeInputEl) :
    (applyMutations (m :: rest) el).needsHighlight = true := by
  induction rest generalizing m el with
  | nil => exact applyMutation_dirty m el
  | cons m2 r2 ih => exact ih m2 (applyMutation m el)

/-- C2: for any number (at least one) of value or attribute mutations within
a single frame, exactly one highlight pass — one update call — executes on
the next frame tick, after which the dirty flag is cleared; on a tick where
the dirty flag is unset no highlight pass executes and the state is
untouched. -/
theorem C2_frame_coalescing (t : JsTemplate) (el : CodeInputEl)
    (m : FrameMutation) (rest : List FrameMutation) :
    ((animateFrame t (applyMutations (m :: rest) el)).2.length = 1 ∧
      (animateFrame t (applyMutations (m :: rest) el)).1.needsHighlight
        = false) ∧
    (el.needsHighlight = false → animateFrame t el = (el, [])) := by
  constructor
  · have hd := applyMutations_cons_dirty m rest el
    unfold animateFrame
    rw [if_pos hd]
    exact ⟨rfl, rfl⟩
  · intro h
    unfold animateFrame
    rw [if_neg (by simp [h])]

/-- Witness for C2: two mutations in one frame produce exactly one update on
the next tick, and a tick on a clean instance performs none. -/
theorem C2_frame_coalescing_witness :
    (animateFrame sampleTemplate
        (applyMutations [.schedule, .setVal (.str ('x' :: []))] sampleEl)).2.length
      = 1 ∧
    animateFrame sampleTemplate sampleEl = (sampleEl, []) :=
  ⟨(C2_frame_coalescing sampleTemplate sampleEl .schedule
      [.setVal (.str ('x' :: []))]).1.1,
   (C2_frame_coalescing sampleTemplate sampleEl .schedule
      [.setVal (.str ('x' :: []))]).2 rfl⟩

theorem pluginEvt_classHooks (ps : List PluginObj) (eventName : String)
    (hhooks : ∀ p ∈ ps, p.hooks = pluginClassHooks)
    (hmem : pluginClassHooks.contains eventName = true) :
    pluginEvt ps eventName = ps.map (fun p => Effect.hook p.id eventName) := by
  induction ps with
  | nil => rfl
  | cons p rest ih =>
      have hp := hhooks p (List.mem_cons_self p rest)
      have hrest := ih (fun q hq => hhooks q (List.mem_cons_of_mem p hq))
      have hmem' : eventName ∈ pluginClassHooks := by simpa using hmem
      have hstep : pluginEvt (p :: rest) eventName =
          Effect.hook p.id eventName :: pluginEvt rest eventName := by
        simp [pluginEvt, hp, hmem']
      rw [hstep, hrest, List.map_cons]

/-- C8: every highlight pass performs, in this order: read the current value
and append exactly one trailing newline; HTML-escape the result into the
code element; fire every plugin's beforeHighlight hook in template plugin
order; call the template's highlight function, passing the instance as a
second argument if and only if includeCodeInputInHighlightFunc is true;
reconcile the surface sizes; then fire every plugin's afterHighlight hook in
template plugin order. -/
theorem C8_update_order (t : JsTemplate) (el : CodeInputEl)
    (ps : List PluginObj) (b : Bool)
    (hps : templatePlugins t = ps)
    (hhooks : ∀ p ∈ ps, p.hooks = pluginClassHooks)
    (hflag : t.includeCodeInputInHighlightFunc = .bool b) :
    update t el =
      ({ el with codeInnerHTML := escapeHtml (getValue el ++ ['\n']) },
        [Effect.setCodeInnerHTML (escapeHtml (getValue el ++ ['\n']))] ++
          ps.map (fun p => Effect.hook p.id "beforeHighlight") ++
          [Effect.highlightCall b, Effect.syncSizeCall] ++
          ps.map (fun p => Effect.hook p.id "afterHighlight")) := by
  unfold update
  rw [hps, hflag]
  rw [pluginEvt_classHooks ps "beforeHighlight" hhooks (by decide)]
  rw [pluginEvt_classHooks ps "afterHighlight" hhooks (by decide)]
  simp [jsTruthy, List.append_assoc]

/-- A template carrying two plugins, the second declaring an observed
attribute, with includeCodeInputInHighlightFunc set. -/
def pluginTemplate : JsTemplate :=
  { highlight := .fn 1, preElementStyled := .bool true, isCode := .bool true,
    includeCodeInputInHighlightFunc := .bool true,
    plugins := .arr [.plugin (mkPlugin 0 []),
      .plugin (mkPlugin 1 ["data-limit"])] }

/-- Witness for C8 on a concrete element and a two-plugin template. -/
theorem C8_update_order_witness :
    update pluginTemplate sampleEl =
      ({ sampleEl with
          codeInnerHTML := escapeHtml (getValue sampleEl ++ ['\n']) },
        [Effect.setCodeInnerHTML (escapeHtml (getValue sampleEl ++ ['\n'])),
         Effect.hook 0 "beforeHighlight", Effect.hook 1 "beforeHighlight",
         Effect.highlightCall true, Effect.syncSizeCall,
         Effect.hook 0 "afterHighlight", Effect.hook 1 "afterHighlight"]) :=
  C8_update_order pluginTemplate sampleEl
    [mkPlugin 0 [], mkPlugin 1 ["data-limit"]] true rfl (by decide) rfl

theorem mem_addClass_self (c : String) (l : List String) : c ∈ addClass c l := by
  unfold addClass
  by_cases h : l.contains c
  · rw [if_pos h]
    simpa using h
  · rw [if_neg h]
    simp

theorem mem_addClass_of_ne (c d : String) (l : List String) (hne : d ≠ c) :
    d ∈ addClass c l ↔ d ∈ l := by
  unfold addClass
  by_cases h : l.contains c
  · rw [if_pos h]
  · rw [if_neg h]
    simp [hne]

theorem not_mem_removeClass_self (c : String) (l : List String) :
    c ∉ removeClass c l := by
  unfold removeClass
  simp

theorem not_mem_removeClass_of_not_mem (c d : String) (l : List String)
    (h : d ∉ l) : d ∉ removeClass c l := by
  unfold removeClass
  intro hmem
  exact h (List.mem_of_mem_filter hmem)

theorem applyLangChange_codeClasses (oldV nv : String) (el : CodeInputEl)
    (hnv : nv ≠ "") :
    (applyLangChange (some oldV) (some nv) el).codeClasses =
      addClass ("language-" ++ nv)
        (removeClass "language-none"
          (removeClass ("language-" ++ lowerS oldV) el.codeClasses)) := by
  unfold applyLangChange scheduleHighlight setTextareaAttr
  dsimp only [Option.map]
  rw [if_pos hnv]
  split <;> rfl

theorem applyLangChange_preClasses (oldV nv : String) (el : CodeInputEl)
    (hnv : nv ≠ "") :
    (applyLangChange (some oldV) (some nv) el).preClasses =
      removeClass "language-none"
        (removeClass ("language-" ++ lowerS oldV) el.preClasses) := by
  unfold applyLangChange scheduleHighlight setTextareaAttr
  dsimp only [Option.map]
  rw [if_pos hnv]
  split <;> rfl

theorem applyLangChange_dirty (oldV : Option String) (nv : Option String)
    (el : CodeInputEl) :
    (applyLangChange oldV nv el).needsHighlight = true := rfl

/-- The lang branch of attributeChangedCallback on a connected instance with
a non-null new value: a no-op when the (lowercased) new language class is
already on the code element, and otherwise applyLangChange. -/
theorem attributeChangedCallback_lang (reg : RegistryState)
    (plugins : List PluginObj) (attr old new : String) (el : CodeInputEl)
    (hattr : attr = "lang" ∨ attr = "language")
    (hconn : el.isConnected = true) :
    attributeChangedCallback reg plugins attr (some old) (some new) el =
      if el.codeClasses.contains ("language-" ++ lowerS new) then
        (pluginEvtAttributeChanged plugins attr (some old) (some new), .ok el)
      else
        (pluginEvtAttributeChanged plugins attr (some old) (some new),
          .ok (applyLangChange (some old) (some (lowerS new)) el)) := by
  rcases hattr with h | h <;> subst h <;>
    simp [attributeChangedCallback, hconn]

/-- C5 counterexample: on a connected instance whose two rendering nodes
both carry class language-python, changing the lang attribute from "python"
to "rust" adds language-rust to the inner code element ONLY: the pre
container ends up with no language class at all, contradicting the claim
that the class is added on both rendering nodes. -/
theorem C5_counterexample_pre_not_updated :
    attributeChangedCallback
      { usedTemplates := [], defaultTemplate := none,
        templateNotYetRegisteredQueue := [] }
      [] "lang" (some "python") (some "rust")
      { isConnected := true, textareaValue := [], textareaAttrs := [],
        rootClasses := [], preClasses := ["language-python"],
        codeClasses := ["language-python"], codeInnerHTML := [],
        template := some sampleTemplate, needsHighlight := false } =
      ([], .ok
        { isConnected := true, textareaValue := [], textareaAttrs := [],
          rootClasses := [], preClasses := [],
          codeClasses := ["language-rust"], codeInnerHTML := [],
          template := some sampleTemplate, needsHighlight := true }) ∧
    ("language-rust" ∈ (["language-rust"] : List String) ∧
      "language-rust" ∉ ([] : List String)) :=
  ⟨rfl, by decide, by decide⟩

/-- C5 (amended): on a connected instance, changing the lang (or language)
attribute from one language to a different one whose class is not yet
applied removes the old language class (case-insensitively) from BOTH
rendering nodes, adds the new language class to the inner code element ONLY
— the pre container does not receive it — and sets the dirty flag; changing
the attribute to a value whose lowercased language class is already applied
on the code element performs no state change at all (no class change, no
placeholder sync, no dirty-flag set). -/
theorem C5_lang_change_amended (reg : RegistryState)
    (plugins : List PluginObj) (attr old new : String) (el : CodeInputEl)
    (hattr : attr = "lang" ∨ attr = "language")
    (hconn : el.isConnected = true)
    (hnotapplied : ("language-" ++ lowerS new) ∉ el.codeClasses)
    (hdistinct : ("language-" ++ lowerS old) ≠ ("language-" ++ lowerS new))
    (hnonempty : lowerS new ≠ "")
    (hpre : ("language-" ++ lowerS new) ∉ el.preClasses) :
    (∃ el', attributeChangedCallback reg plugins attr (some old) (some new) el
        = (pluginEvtAttributeChanged plugins attr (some old) (some new),
           .ok el') ∧
      ("language-" ++ lowerS new) ∈ el'.codeClasses ∧
      ("language-" ++ lowerS old) ∉ el'.codeClasses ∧
      ("language-" ++ lowerS old) ∉ el'.preClasses ∧
      ("language-" ++ lowerS new) ∉ el'.preClasses ∧
      el'.needsHighlight = true) ∧
    (∀ el₂ : CodeInputEl, el₂.isConnected = true →
      ("language-" ++ lowerS new) ∈ el₂.codeClasses →
      attributeChangedCallback reg plugins attr (some old) (some new) el₂ =
        (pluginEvtAttributeChanged plugins attr (some old) (some new),
         .ok el₂)) := by
  constructor
  · refine ⟨applyLangChange (some old) (some (lowerS new)) el, ?_, ?_, ?_, ?_, ?_, ?_⟩
    · rw [attributeChangedCallback_lang reg plugins attr old new el hattr hconn]
      rw [if_neg (by simp [hnotapplied])]
    · rw [applyLangChange_codeClasses old (lowerS new) el hnonempty]
      exact mem_addClass_self _ _
    · rw [applyLangChange_codeClasses old (lowerS new) el hnonempty]
      intro hmem
      have hmem2 := (mem_addClass_of_ne _ _ _ hdistinct).mp hmem
      exact not_mem_removeClass_of_not_mem _ _ _
        (not_mem_removeClass_self _ _) hmem2
    · rw [applyLangChange_preClasses old (lowerS new) el hnonempty]
      exact not_mem_removeClass_of_not_mem _ _ _
        (not_mem_removeClass_self _ _)
    · rw [applyLangChange_preClasses old (lowerS new) el hnonempty]
      exact not_mem_removeClass_of_not_mem _ _ _
        (not_mem_removeClass_of_not_mem _ _ _ hpre)
    · exact applyLangChange_dirty _ _ _
  · intro el₂ hc₂ happ
    rw [attributeChangedCallback_lang reg plugins attr old new el₂ hattr hc₂]
    rw [if_pos (by simp [happ])]

/-- Witness for C5 (amended): the concrete python-to-rust change. -/
theorem C5_lang_change_amended_witness :
    (∃ el', attributeChangedCallback
        { usedTemplates := [], defaultTemplate := none,
          templateNotYetRegisteredQueue := [] }
        [] "lang" (some "python") (some "rust")
        { isConnected := true, textareaValue := [], textareaAttrs := [],
          rootClasses := [], preClasses := ["language-python"],
          codeClasses := ["language-python"], codeInnerHTML := [],
          template := some sampleTemplate, needsHighlight := false } =
        (pluginEvtAttributeChanged [] "lang" (some "python") (some "rust"),
         .ok el') ∧
      ("language-" ++ lowerS "rust") ∈ el'.codeClasses ∧
      ("language-" ++ lowerS "python") ∉ el'.codeClasses ∧
      ("language-" ++ lowerS "python") ∉ el'.preClasses ∧
      ("language-" ++ lowerS "rust") ∉ el'.preClasses ∧
      el'.needsHighlight = true) ∧
    (∀ el₂ : CodeInputEl, el₂.isConnected = true →
      ("language-" ++ lowerS "rust") ∈ el₂.codeClasses →
      attributeChangedCallback
        { usedTemplates := [], defaultTemplate := none,
          templateNotYetRegisteredQueue := [] }
        [] "lang" (some "python") (some "rust") el₂ =
        (pluginEvtAttributeChanged [] "lang" (some "python") (some "rust"),
         .ok el₂)) :=
  C5_lang_change_amended
    { usedTemplates := [], defaultTemplate := none,
      templateNotYetRegisteredQueue := [] }
    [] "lang" "python" "rust"
    { isConnected := true, textareaValue := [], textareaAttrs := [],
      rootClasses := [], preClasses := ["language-python"],
      codeClasses := ["language-python"], codeInnerHTML := [],
      template := some sampleTemplate, needsHighlight := false }
    (Or.inl rfl) rfl (by decide) (by decide) (by decide) (by decide)

/-- C6 (code bug): on a connected instance, changing an attribute that is
watched only because a plugin declared it does fire every plugin's
attributeChanged hook with the name, old value and new value — but the
built-in default branch then reads `codeInput.textareaSyncAttributes.regexp`,
a property no code ever assigns, and calls forEach on the resulting
undefined, raising a TypeError instead of completing with no other effect as
the specification states. -/
theorem C6_plugin_attribute_throws :
    "data-limit" ∈ observedAttributesWith ["data-limit"] ∧
    "data-limit" ∉ observedAttributes ∧
    "data-limit" ∉ textareaSyncAttributes ∧
    attributeChangedCallback
      { usedTemplates := [], defaultTemplate := none,
        templateNotYetRegisteredQueue := [] }
      [mkPlugin 0 [], mkPlugin 1 ["data-limit"]]
      "data-limit" none (some "10") sampleEl =
      ([.attributeChangedHook 0 "data-limit" none (some "10"),
        .attributeChangedHook 1 "data-limit" none (some "10")],
       .error "TypeError: cannot read forEach of undefined") :=
  ⟨by decide, by decide, by decide, rfl⟩

/-- A listener object passed to addEventListener or removeEventListener: its
object identity and its source text — the string JavaScript produces when
the object is coerced to a property key. -/
structure JsListener where
  id : Nat
  src : String
deriving DecidableEq

/-- The listener-forwarding state of a set-up code-input element: the
boundEventCallbacks object (src/code-input.js lines 445-453) — a plain
JavaScript object, so its keys are the STRING coercions of the listeners —
the id of the next bound wrapper closure to be created, and the wrappers
attached to the editable textarea and to the host element. -/
structure ListenerState where
  boundEventCallbacks : List (String × Nat)
  nextWrapperId : Nat
  textareaListeners : List (String × Nat)
  hostListeners : List (String × Nat)
deriving DecidableEq

/-- codeInput.CodeInput.addEventListener (src/code-input.js lines 866-902)
for a set-up element (textareaElement non-null): create a fresh bound
wrapper closure, store it in `boundEventCallbacks[listener]` — JavaScript
coerces the listener object to its string form as the key, so a second
listener with the same source text overwrites the first entry — then attach
the wrapper to the textarea for types on the sync-event allow-list, and to
the host element otherwise. -/
def addEventListener (type : String) (listener : JsListener)
    (st : ListenerState) : ListenerState :=
  let boundCallback := st.nextWrapperId
  let st1 := { st with
    boundEventCallbacks :=
      assocSet st.boundEventCallbacks listener.src boundCallback,
    nextWrapperId := st.nextWrapperId + 1 }
  if textareaSyncEvents.contains type then
    { st1 with textareaListeners :=
        st1.textareaListeners ++ [(type, boundCallback)] }
  else
    { st1 with hostListeners := st1.hostListeners ++ [(type, boundCallback)] }

/-- codeInput.CodeInput.removeEventListener (src/code-input.js lines
907-934) for a set-up element: look the wrapper up in
`boundEventCallbacks[listener]` under the listener's string coercion and
detach exactly that wrapper (an absent key yields undefined, which detaches
nothing). -/
def removeEventListener (type : String) (listener : JsListener)
    (st : ListenerState) : ListenerState :=
  match assocGet st.boundEventCallbacks listener.src with
  | none => st
  | some boundCallback =>
      if textareaSyncEvents.contains type then
        { st with textareaListeners :=
            st.textareaListeners.filter (fun tw => !(tw == (type, boundCallback))) }
      else
        { st with hostListeners :=
            st.hostListeners.filter (fun tw => !(tw == (type, boundCallback))) }

/-- Two distinct listener objects with identical source text. -/
def listener1 : JsListener := ⟨1, "function handle(evt)"⟩

/-- A second, distinct listener whose toString equals that of listener1. -/
def listener2 : JsListener := ⟨2, "function handle(evt)"⟩

/-- The listener state of a freshly set-up element. -/
def listenerState0 : ListenerState := ⟨[], 0, [], []⟩

/-- C9 (code bug): `boundEventCallbacks` is keyed by the STRING coercion of
the listener, not by its identity.  Adding two distinct listeners with
identical source text for "change" attaches wrapper 0 for the first and
wrapper 1 for the second, but the second add overwrites the shared map
entry; removeEventListener("change", first listener) then locates wrapper 1
— the wrapper bound for the OTHER listener — and detaches it, leaving the
first listener's own wrapper attached.  This contradicts the claim that
removal finds, keyed by the identity of the original listener, the same
wrapper that addEventListener attached for it, with distinct wrappers for
distinct listeners. -/
theorem C9_remove_detaches_other_wrapper :
    listener1 ≠ listener2 ∧
    (addEventListener "change" listener2
        (addEventListener "change" listener1 listenerState0)).textareaListeners
      = [("change", 0), ("change", 1)] ∧
    (removeEventListener "change" listener1
        (addEventListener "change" listener2
          (addEventListener "change" listener1
            listenerState0))).textareaListeners
      = [("change", 0)] :=
  ⟨by decide, by decide, by decide⟩
